import Mathlib

/-!
Verification of the pymathml expression-tree model and its MathML
serialization (shallow embedding of `pymathml/core.py` and
`pymathml/utils.py`).

Conventions of the embedding:

* Python keyword-argument attribute mappings are lists of
  `(key, str(value))` pairs in insertion order (`Attrs`).
* Python numeric values (`numbers.Number`) are modelled as `Int`;
  only their `str` form ever matters to the serializer.
* A raising Python call is modelled with `Option`/`Except`: `none` /
  `.error` means the call raises.
* Children of composite nodes are stored exactly as
  `Expression.__init__` stores them: a list whose entries are either a
  node or the `None` placeholder (`Child.null`).  The list type
  `ChildList` is a specialized cons-list so that all recursion over the
  tree is structural.
-/

namespace pymathml

/-- Attribute mapping of an element: ordered `(key, str(value))` pairs,
as produced by Python keyword arguments. -/
abbrev Attrs := List (String × String)

/-- Python's `' '.join(items)`. -/
def joinSpace : List String → String
  | [] => ""
  | [s] => s
  | s :: rest => s ++ " " ++ joinSpace rest

/-- Python's `''.join(items)`. -/
def concatAll : List String → String
  | [] => ""
  | s :: rest => s ++ concatAll rest

/-- Serialization of an attribute mapping, from `to_xml_string`
(`core.py`, lines 7-9): empty mapping gives the empty string, otherwise
a leading space and space-separated `key="value"` items, values
interpolated verbatim. -/
def attrsString (attributes : Attrs) : String :=
  match attributes with
  | [] => ""
  | _ => " " ++ joinSpace
      (attributes.map (fun kv => kv.1 ++ "=\"" ++ kv.2 ++ "\""))

/-- Embedding of `to_xml_string(tag, text, children, **attributes)`
(`core.py`, lines 4-14): `<tag attrs>children…text</tag>`, with the
children serialized before the text, nothing escaped. -/
def to_xml_string (tag : String) (text : String) (children : List String)
    (attributes : Attrs) : String :=
  "<" ++ tag ++ attrsString attributes ++ ">" ++ concatAll children
    ++ text ++ "</" ++ tag ++ ">"

mutual

/-- Value stored in a `Token` node: a Python string, a number, or —
since `Token.__init__` stores its argument verbatim — another
expression node.  A node value additionally records the memory address
of the stored live object: the address is a property of the particular
object, not of the tree's structure (two structurally equal nodes may
be distinct objects at distinct addresses), and Python's default
`object.__repr__` embeds it when the value is stringified. -/
inductive TokValue : Type where
  | ofStr (s : String)
  | ofNum (n : Int)
  | ofNode (e : MathExpr) (addr : String)
deriving DecidableEq

/-- A pymathml node.  `token` covers the `Token` subclasses (tag `mi`,
`mn`, `mo`, `mtext`); `elem` covers the plain `Expression` subclasses
(Row, Frac, …, made by `expression_type`), which render generically;
`unaryOp`/`binaryOp`/`naryOp` cover the operation subclasses, which
carry a fixed operator glyph and override `to_mml`. -/
inductive MathExpr : Type where
  | token (tag : String) (value : TokValue) (attributes : Attrs)
  | elem (tag : String) (children : ChildList) (attributes : Attrs)
  | unaryOp (op : String) (children : ChildList) (attributes : Attrs)
  | binaryOp (op : String) (children : ChildList) (attributes : Attrs)
  | naryOp (op : String) (children : ChildList) (attributes : Attrs)
deriving DecidableEq

/-- One stored child: `None` or a node (`Expression.__init__` stores
`expression(e)` for each argument, which is `None` or a node). -/
inductive Child : Type where
  | null
  | node (e : MathExpr)
deriving DecidableEq

/-- Cons-list of stored children. -/
inductive ChildList : Type where
  | nil
  | cons (c : Child) (cs : ChildList)
deriving DecidableEq

end

/-- Builds a `ChildList` from a `List Child` (notation helper only). -/
def clist : List Child → ChildList
  | [] => .nil
  | c :: cs => .cons c (clist cs)

/-- Python class name of a node, as it appears in the default
`object.__repr__`.  Token and expression classes are uniquely
determined by their tag, operation classes by their operator glyph
(`core.py`, lines 427-480). -/
def pyClassName : MathExpr → String
  | .token tag _ _ =>
    match tag with
    | "mi" => "Identifier"
    | "mn" => "Number"
    | "mo" => "Operator"
    | "mtext" => "Text"
    | _ => "Token"
  | .elem tag _ _ =>
    match tag with
    | "mrow" => "Row"
    | "mfrac" => "Frac"
    | "msqrt" => "Sqrt"
    | "mroot" => "Root"
    | "mstyle" => "Style"
    | "mfenced" => "Fenced"
    | "msub" => "Sub"
    | "msup" => "Sup"
    | "msubsup" => "SubSup"
    | "munder" => "Under"
    | "mover" => "Over"
    | "munderover" => "UnderOver"
    | "mtable" => "Table"
    | "mtr" => "TableRow"
    | "mtd" => "TableEntry"
    | _ => "Expression"
  | .unaryOp op _ _ =>
    match op with
    | "+" => "Pos"
    | "-" => "Neg"
    | _ => "UnaryOperation"
  | .binaryOp op _ _ =>
    match op with
    | "=" => "Equals"
    | "+" => "Plus"
    | "-" => "Minus"
    | "⁢" => "Times"
    | _ => "BinaryOperation"
  | .naryOp op _ _ =>
    match op with
    | "∑" => "Sum"
    | _ => "NaryOperation"

/-- Python's default `object.__repr__` of a node living at the given
memory address: `<pymathml.core.ClassName object at ADDR>`.  No base
class of `core.py` defines `__str__` or `__repr__`, so `str` on a node
produces this string; the address is the one recorded for the stored
live object, on which the embedding places no constraint. -/
def pyReprNodeAt (addr : String) (e : MathExpr) : String :=
  "<pymathml.core." ++ pyClassName e ++ " object at " ++ addr ++ ">"

/-- Python `str` applied to a token's stored value (`Token.to_mml`,
`core.py`, line 112). -/
def pyStr : TokValue → String
  | .ofStr s => s
  | .ofNum n => toString n
  | .ofNode e addr => pyReprNodeAt addr e

/-- Markup of the fixed operator token of an operation class:
`Operator(op).to_mml()` is `to_xml_string('mo', text=op)`. -/
def opMml (op : String) : String :=
  to_xml_string "mo" op [] []

mutual

/-- Embedding of the `to_mml` methods (`core.py`): `Token.to_mml`
(line 111), `Expression.to_mml` (line 192), `UnaryOperation.to_mml`
(line 204), `BinaryOperation.to_mml` (line 217) — note that this one
builds `Row(*children)` WITHOUT passing `self.attributes` — and
`NaryOperation.to_mml` (line 231).  `none` models a raising call
(IndexError on `children[0]` of an empty operation, ValueError on
unpacking an n-ary operation whose child list does not have length
3). -/
def exprToMml : MathExpr → Option String
  | .token tag v attributes =>
    some (to_xml_string tag (pyStr v) [] attributes)
  | .elem tag cs attributes =>
    match childrenToMml cs with
    | none => none
    | some l => some (to_xml_string tag "" l attributes)
  | .unaryOp op cs attributes =>
    match cs with
    | .nil => none
    | .cons c _ =>
      match childToMml c with
      | none => none
      | some cm => some (to_xml_string "mrow" "" [opMml op, cm] attributes)
  | .binaryOp op cs _ =>
    match cs with
    | .nil => none
    | .cons c rest =>
      match childToMml c, tailToMml op rest with
      | some c0, some tl => some (to_xml_string "mrow" "" (c0 :: tl) [])
      | _, _ => none
  | .naryOp op cs attributes =>
    match cs with
    | .cons operand (.cons lower (.cons upper .nil)) =>
      match lower, upper with
      | .null, .null =>
        match childToMml operand with
        | none => none
        | some om => some (to_xml_string "mrow" "" [opMml op, om] attributes)
      | .node l, .null =>
        match exprToMml l, childToMml operand with
        | some lm, some om =>
          some (to_xml_string "mrow" ""
            [to_xml_string "munder" "" [opMml op, lm] [], om] attributes)
        | _, _ => none
      | .null, .node u =>
        match exprToMml u, childToMml operand with
        | some um, some om =>
          some (to_xml_string "mrow" ""
            [to_xml_string "mover" "" [opMml op, um] [], om] attributes)
        | _, _ => none
      | .node l, .node u =>
        match exprToMml l, exprToMml u, childToMml operand with
        | some lm, some um, some om =>
          some (to_xml_string "mrow" ""
            [to_xml_string "munderover" "" [opMml op, lm, um] [], om]
            attributes)
        | _, _, _ => none
    | _ => none

/-- Markup contributed by one stored child: the module-level
`to_mml(c)` used in `Expression.to_mml` — the empty string for `None`,
the child's own markup otherwise. -/
def childToMml : Child → Option String
  | .null => some ""
  | .node e => exprToMml e

/-- Markup of each stored child in order. -/
def childrenToMml : ChildList → Option (List String)
  | .nil => some []
  | .cons c cs =>
    match childToMml c, childrenToMml cs with
    | some s, some l => some (s :: l)
    | _, _ => none

/-- Markup of the trailing operands of `BinaryOperation.to_mml`: each
operand is preceded by the fixed operator token. -/
def tailToMml (op : String) : ChildList → Option (List String)
  | .nil => some []
  | .cons c cs =>
    match childToMml c, tailToMml op cs with
    | some s, some l => some (opMml op :: s :: l)
    | _, _ => none

end

/-- A Python value handed to the construction API: the `None`
placeholder, an existing node, a number (`numbers.Number`, modelled as
`Int`), a string, or any other object (carrying only a description —
its identity is irrelevant, the coercion rejects it). -/
inductive PyObj : Type where
  | none
  | node (e : MathExpr)
  | num (n : Int)
  | str (s : String)
  | other (descr : String)
deriving DecidableEq

/-- Embedding of `expression(expr)` (`core.py`, lines 483-493): `None`
passes through, nodes are returned unchanged, numbers become `Number`
tokens, strings become `Identifier` tokens, anything else raises
`ValueError(expr)` (modelled as `.error` carrying the offending
value). -/
def expression : PyObj → Except PyObj (Option MathExpr)
  | .none => .ok Option.none
  | .node e => .ok (some e)
  | .num n => .ok (some (.token "mn" (.ofNum n) []))
  | .str s => .ok (some (.token "mi" (.ofStr s) []))
  | .other d => .error (.other d)

/-- The stored form of one coerced constructor argument. -/
def childOf : Option MathExpr → Child
  | Option.none => .null
  | some e => .node e

/-- Coercion of the positional arguments of `Expression.__init__`
(`core.py`, line 189): each argument goes through `expression`; the
first failure propagates. -/
def coerceArgs : List PyObj → Except PyObj ChildList
  | [] => .ok .nil
  | a :: rest =>
    match expression a with
    | .error e => .error e
    | .ok c =>
      match coerceArgs rest with
      | .error e => .error e
      | .ok cs => .ok (.cons (childOf c) cs)

/-- Embedding of `Expression.__init__` for a class of the given tag
(`core.py`, lines 181-190): coerce every positional argument, store
the attribute mapping; there is no arity check of any kind. -/
def mkExpression (tag : String) (args : List PyObj) (attributes : Attrs) :
    Except PyObj MathExpr :=
  match coerceArgs args with
  | .error e => .error e
  | .ok cs => .ok (.elem tag cs attributes)

/-- Constructors of the `Token` subclasses (`core.py`, lines 427-430):
the value is stored verbatim, never coerced. -/
def Identifier (value : TokValue) (attributes : Attrs) : MathExpr :=
  .token "mi" value attributes

/-- Constructor of the `Number` token (tag `mn`). -/
def Number (value : TokValue) (attributes : Attrs) : MathExpr :=
  .token "mn" value attributes

/-- Constructor of the `Operator` token (tag `mo`). -/
def Operator (value : TokValue) (attributes : Attrs) : MathExpr :=
  .token "mo" value attributes

/-- Constructor of the `Text` token (tag `mtext`). -/
def Text (value : TokValue) (attributes : Attrs) : MathExpr :=
  .token "mtext" value attributes

/-- Constructors of the plain `Expression` subclasses made by
`expression_type` (`core.py`, lines 439-465).  All of them share
`Expression.__init__`, so all are variadic — the `params` strings
passed to `expression_type` only shape the generated docstring. -/
def Row (args : List PyObj) (attributes : Attrs) : Except PyObj MathExpr :=
  mkExpression "mrow" args attributes

/-- Constructor of `Frac` (tag `mfrac`). -/
def Frac (args : List PyObj) (attributes : Attrs) : Except PyObj MathExpr :=
  mkExpression "mfrac" args attributes

/-- Constructor of `Sqrt` (tag `msqrt`). -/
def Sqrt (args : List PyObj) (attributes : Attrs) : Except PyObj MathExpr :=
  mkExpression "msqrt" args attributes

/-- Constructor of `Root` (tag `mroot`). -/
def Root (args : List PyObj) (attributes : Attrs) : Except PyObj MathExpr :=
  mkExpression "mroot" args attributes

/-- Constructor of `Style` (tag `mstyle`). -/
def Style (args : List PyObj) (attributes : Attrs) : Except PyObj MathExpr :=
  mkExpression "mstyle" args attributes

/-- Constructor of `Fenced` (tag `mfenced`). -/
def Fenced (args : List PyObj) (attributes : Attrs) : Except PyObj MathExpr :=
  mkExpression "mfenced" args attributes

/-- Constructor of `Sub` (tag `msub`). -/
def Sub (args : List PyObj) (attributes : Attrs) : Except PyObj MathExpr :=
  mkExpression "msub" args attributes

/-- Constructor of `Sup` (tag `msup`). -/
def Sup (args : List PyObj) (attributes : Attrs) : Except PyObj MathExpr :=
  mkExpression "msup" args attributes

/-- Constructor of `SubSup` (tag `msubsup`). -/
def SubSup (args : List PyObj) (attributes : Attrs) : Except PyObj MathExpr :=
  mkExpression "msubsup" args attributes

/-- Constructor of `Under` (tag `munder`). -/
def Under (args : List PyObj) (attributes : Attrs) : Except PyObj MathExpr :=
  mkExpression "munder" args attributes

/-- Constructor of `Over` (tag `mover`). -/
def Over (args : List PyObj) (attributes : Attrs) : Except PyObj MathExpr :=
  mkExpression "mover" args attributes

/-- Constructor of `UnderOver` (tag `munderover`). -/
def UnderOver (args : List PyObj) (attributes : Attrs) : Except PyObj MathExpr :=
  mkExpression "munderover" args attributes

/-- Constructor of `Table` (tag `mtable`). -/
def Table (args : List PyObj) (attributes : Attrs) : Except PyObj MathExpr :=
  mkExpression "mtable" args attributes

/-- Constructor of `TableRow` (tag `mtr`). -/
def TableRow (args : List PyObj) (attributes : Attrs) : Except PyObj MathExpr :=
  mkExpression "mtr" args attributes

/-- Constructor of `TableEntry` (tag `mtd`). -/
def TableEntry (args : List PyObj) (attributes : Attrs) : Except PyObj MathExpr :=
  mkExpression "mtd" args attributes

/-- Constructor of the `UnaryOperation` subclasses (they inherit
`Expression.__init__`, so they too are variadic). -/
def mkUnaryOperation (op : String) (args : List PyObj) (attributes : Attrs) :
    Except PyObj MathExpr :=
  match coerceArgs args with
  | .error e => .error e
  | .ok cs => .ok (.unaryOp op cs attributes)

/-- Constructor of the `BinaryOperation` subclasses. -/
def mkBinaryOperation (op : String) (args : List PyObj) (attributes : Attrs) :
    Except PyObj MathExpr :=
  match coerceArgs args with
  | .error e => .error e
  | .ok cs => .ok (.binaryOp op cs attributes)

/-- Constructor of the `NaryOperation` subclasses. -/
def mkNaryOperation (op : String) (args : List PyObj) (attributes : Attrs) :
    Except PyObj MathExpr :=
  match coerceArgs args with
  | .error e => .error e
  | .ok cs => .ok (.naryOp op cs attributes)

/-- Constructor `Pos` (`core.py`, line 472). -/
def Pos (args : List PyObj) (attributes : Attrs) : Except PyObj MathExpr :=
  mkUnaryOperation "+" args attributes

/-- Constructor `Neg` (`core.py`, line 473). -/
def Neg (args : List PyObj) (attributes : Attrs) : Except PyObj MathExpr :=
  mkUnaryOperation "-" args attributes

/-- Constructor `Equals` (`core.py`, line 475). -/
def Equals (args : List PyObj) (attributes : Attrs) : Except PyObj MathExpr :=
  mkBinaryOperation "=" args attributes

/-- Constructor `Plus` (`core.py`, line 476). -/
def Plus (args : List PyObj) (attributes : Attrs) : Except PyObj MathExpr :=
  mkBinaryOperation "+" args attributes

/-- Constructor `Minus` (`core.py`, line 477). -/
def Minus (args : List PyObj) (attributes : Attrs) : Except PyObj MathExpr :=
  mkBinaryOperation "-" args attributes

/-- Constructor `Times` (`core.py`, line 478): the operator glyph is
U+2062 INVISIBLE TIMES. -/
def Times (args : List PyObj) (attributes : Attrs) : Except PyObj MathExpr :=
  mkBinaryOperation "⁢" args attributes

/-- Constructor `Sum` (`core.py`, line 480): the operator glyph is
U+2211 N-ARY SUMMATION. -/
def Sum (args : List PyObj) (attributes : Attrs) : Except PyObj MathExpr :=
  mkNaryOperation "∑" args attributes

/-- Subscript key of `BaseExpression.__getitem__`: a tuple key or a
single value. -/
inductive PyKey : Type where
  | single (k : PyObj)
  | tuple (ks : List PyObj)
deriving DecidableEq

/-- Embedding of `BaseExpression.__getitem__` (`core.py`, lines 73-76):
a tuple key builds `Fenced(*key, open='', close='')` as subscript,
any other key is used as subscript directly; the result is
`Sub(self, subscript)`. -/
def getitem (a : MathExpr) (key : PyKey) : Except PyObj MathExpr :=
  match key with
  | .tuple ks =>
    match Fenced ks [("open", ""), ("close", "")] with
    | .error e => .error e
    | .ok f => Sub [.node a, .node f] []
  | .single k => Sub [.node a, k] []

/-- Embedding of the module-level `to_mml(expr, display=None)`
(`core.py`, lines 504-517): `None` renders as the empty string,
anything else is coerced and rendered; when `display` is supplied the
result is wrapped in a `math` element with the fixed namespace
attribute and the display attribute. -/
def to_mml (expr : PyObj) (display : Option String) : Option String :=
  match (match expr with
         | .none => some ""
         | _ =>
           match expression expr with
           | .error _ => Option.none
           | .ok Option.none => Option.none
           | .ok (some n) => exprToMml n) with
  | Option.none => Option.none
  | some e =>
    match display with
    | Option.none => some e
    | some d =>
      some (to_xml_string "math" "" [e]
        [("xmlns", "http://www.w3.org/1998/Math/MathML"), ("display", d)])

mutual

/-- Generic XML element tree, the comparison form for the two output
paths: a tag, an ordered attribute mapping, text content and child
elements (the shape `xml.etree.ElementTree` exposes). -/
inductive Xml : Type where
  | mk (tag : String) (attributes : Attrs) (text : String)
      (children : XmlForest)
deriving DecidableEq

/-- Cons-list of sibling XML elements. -/
inductive XmlForest : Type where
  | nil
  | cons (x : Xml) (xs : XmlForest)
deriving DecidableEq

end

/-- Concatenation of sibling lists. -/
def XmlForest.append : XmlForest → XmlForest → XmlForest
  | .nil, ys => ys
  | .cons x xs, ys => .cons x (xs.append ys)

mutual

/-- Canonical serialization of an XML element, matching the markup
format of `to_xml_string` (modulo escaping, which neither output path
of this program performs on its own fields). -/
def serializeXml : Xml → String
  | .mk tag attributes text children =>
    "<" ++ tag ++ attrsString attributes ++ ">" ++ text
      ++ serializeForest children ++ "</" ++ tag ++ ">"

/-- Serialization of sibling elements in order. -/
def serializeForest : XmlForest → String
  | .nil => ""
  | .cons x xs => serializeXml x ++ serializeForest xs

end

/-- Element of the fixed operator token of an operation class. -/
def opXml (op : String) : Xml :=
  .mk "mo" [] op .nil

mutual

/-- Modelled from the spec: the per-node structured renderer — the
`tomathml` method that `utils.tomathml` (`utils.py`, line 20) calls on
every node — is not present under `src/`; only its caller is.  This
definition follows the per-variant rendering rules of spec §4.4: a
token becomes an element with its tag, attributes and stringified
value as text; a generic composite becomes an element with its tag and
attributes whose children are the rendered non-null children in order
(null children are skipped); a unary operation renders as
`Row(operator, operand)` with the operation's attributes; a
binary/associative operation renders as the operand sequence with the
operator interleaved, attributes on the synthesized Row; an n-ary
limit operation wraps its operator in Under/Over/UnderOver according
to which limits are present and renders as `Row(wrapped, operand)`
with the attributes on the Row. -/
def tomathmlE : MathExpr → Option Xml
  | .token tag v attributes => some (.mk tag attributes (pyStr v) .nil)
  | .elem tag cs attributes =>
    match tomathmlChildren cs with
    | none => none
    | some f => some (.mk tag attributes "" f)
  | .unaryOp op cs attributes =>
    match cs with
    | .nil => none
    | .cons c _ =>
      match tomathmlChild c with
      | none => none
      | some cf =>
        some (.mk "mrow" attributes "" (.cons (opXml op) cf))
  | .binaryOp op cs attributes =>
    match cs with
    | .nil => none
    | .cons c rest =>
      match tomathmlChild c, tomathmlTail op rest with
      | some cf, some tf =>
        some (.mk "mrow" attributes "" (cf.append tf))
      | _, _ => none
  | .naryOp op cs attributes =>
    match cs with
    | .cons operand (.cons lower (.cons upper .nil)) =>
      match lower, upper with
      | .null, .null =>
        match tomathmlChild operand with
        | none => none
        | some f => some (.mk "mrow" attributes "" (.cons (opXml op) f))
      | .node l, .null =>
        match tomathmlE l, tomathmlChild operand with
        | some lx, some f =>
          some (.mk "mrow" attributes ""
            (.cons (.mk "munder" [] ""
              (.cons (opXml op) (.cons lx .nil))) f))
        | _, _ => none
      | .null, .node u =>
        match tomathmlE u, tomathmlChild operand with
        | some ux, some f =>
          some (.mk "mrow" attributes ""
            (.cons (.mk "mover" [] ""
              (.cons (opXml op) (.cons ux .nil))) f))
        | _, _ => none
      | .node l, .node u =>
        match tomathmlE l, tomathmlE u, tomathmlChild operand with
        | some lx, some ux, some f =>
          some (.mk "mrow" attributes ""
            (.cons (.mk "munderover" [] ""
              (.cons (opXml op) (.cons lx (.cons ux .nil)))) f))
        | _, _, _ => none
    | _ => none

/-- Elements contributed by one stored child on the structured path: a
null child is skipped (contributes no element), a node contributes its
own element. -/
def tomathmlChild : Child → Option XmlForest
  | .null => some .nil
  | .node e =>
    match tomathmlE e with
    | none => none
    | some x => some (.cons x .nil)

/-- Elements contributed by the stored children of a generic composite
node, in order. -/
def tomathmlChildren : ChildList → Option XmlForest
  | .nil => some .nil
  | .cons c cs =>
    match tomathmlChild c, tomathmlChildren cs with
    | some f, some fs => some (f.append fs)
    | _, _ => none

/-- Elements contributed by the trailing operands of a binary
operation on the structured path: each operand is preceded by the
operator token. -/
def tomathmlTail (op : String) : ChildList → Option XmlForest
  | .nil => some .nil
  | .cons c cs =>
    match tomathmlChild c, tomathmlTail op cs with
    | some f, some fs => some (.cons (opXml op) (f.append fs))
    | _, _ => none

end

/-- Embedding of `tomathml(expr, display=None)` (`utils.py`, lines
10-28): coerce, call the node's structured renderer, and optionally
wrap in a `math` element with the fixed namespace and display
attributes (the wrapped element has the rendered element as sole
child).  When `expr` is the `None` placeholder the call raises
(`expression(None)` returns `None`, which has no renderer). -/
def tomathml (expr : PyObj) (display : Option String) : Option Xml :=
  match (match expression expr with
         | .error _ => Option.none
         | .ok Option.none => Option.none
         | .ok (some n) => tomathmlE n) with
  | Option.none => Option.none
  | some x =>
    match display with
    | Option.none => some x
    | some d =>
      some (.mk "math"
        [("xmlns", "http://www.w3.org/1998/Math/MathML"), ("display", d)]
        "" (.cons x .nil))

mutual

/-- API-shaped trees: every operation node has the child count its
rendering methods read (at least one child for unary and binary
operations, exactly three for n-ary operations), recursively.  These
are exactly the trees on which rendering raises no exception. -/
def wfExpr : MathExpr → Bool
  | .token _ _ _ => true
  | .elem _ cs _ => wfChildren cs
  | .unaryOp _ cs _ =>
    match cs with
    | .nil => false
    | .cons _ _ => wfChildren cs
  | .binaryOp _ cs _ =>
    match cs with
    | .nil => false
    | .cons _ _ => wfChildren cs
  | .naryOp _ cs _ =>
    match cs with
    | .cons _ (.cons _ (.cons _ .nil)) => wfChildren cs
    | _ => false

/-- API shape of one stored child. -/
def wfChild : Child → Bool
  | .null => true
  | .node e => wfExpr e

/-- API shape of every stored child. -/
def wfChildren : ChildList → Bool
  | .nil => true
  | .cons c cs => wfChild c && wfChildren cs

end

mutual

/-- Trees in which no binary/associative operation node carries a
nonempty attribute mapping (the string path drops exactly those
attributes). -/
def noAttrBinExpr : MathExpr → Bool
  | .token _ _ _ => true
  | .elem _ cs _ => noAttrBinChildren cs
  | .unaryOp _ cs _ => noAttrBinChildren cs
  | .binaryOp _ cs attributes => attributes.isEmpty && noAttrBinChildren cs
  | .naryOp _ cs _ => noAttrBinChildren cs

/-- The same condition on one stored child. -/
def noAttrBinChild : Child → Bool
  | .null => true
  | .node e => noAttrBinExpr e

/-- The same condition on every stored child. -/
def noAttrBinChildren : ChildList → Bool
  | .nil => true
  | .cons c cs => noAttrBinChild c && noAttrBinChildren cs

end

/-- The stored children of the `Row` that `BinaryOperation.to_mml`
builds: the operands with the operator token interleaved between every
consecutive pair (`core.py`, lines 218-221); this helper interleaves
before the second and all later operands. -/
def interleaveTail (op : String) : ChildList → ChildList
  | .nil => .nil
  | .cons c cs =>
    .cons (.node (.token "mo" (.ofStr op) [])) (.cons c (interleaveTail op cs))

/-- Operand sequence with the operator token interleaved between every
consecutive pair. -/
def interleave (op : String) : ChildList → ChildList
  | .nil => .nil
  | .cons c cs => .cons c (interleaveTail op cs)

/-- Stored children with the null entries removed. -/
def dropNull : ChildList → ChildList
  | .nil => .nil
  | .cons .null cs => dropNull cs
  | .cons (.node e) cs => .cons (.node e) (dropNull cs)

/-- Whether `expression` accepts a value: everything except the types
that fall through to the `raise ValueError` branch. -/
def coercible : PyObj → Bool
  | .other _ => false
  | _ => true

/-- Whether a construction call returned a node (as opposed to
raising). -/
def constructs : Except PyObj MathExpr → Bool
  | .ok _ => true
  | .error _ => false

/-- Whether argument coercion succeeded. -/
def coerces : Except PyObj ChildList → Bool
  | .ok _ => true
  | .error _ => false

/-- Example node `Identifier('a')`. -/
def aId : MathExpr := Identifier (.ofStr "a") []

/-- Example node `Identifier('b')`. -/
def bId : MathExpr := Identifier (.ofStr "b") []

/-- Example node `Identifier('p')`. -/
def pId : MathExpr := Identifier (.ofStr "p") []

/-- Example node `Equals(Identifier('i'), 0)` as stored by the
constructor: a binary operation with coerced children. -/
def eqI0 : MathExpr :=
  .binaryOp "=" (.cons (.node (Identifier (.ofStr "i") []))
    (.cons (.node (Number (.ofNum 0) [])) .nil)) []

/-- Example node `Sum(Identifier('x'), Equals(Identifier('i'), 0),
None)`: stored children are the operand, the lower limit and the null
upper limit. -/
def sumExample : MathExpr :=
  .naryOp "∑" (.cons (.node (Identifier (.ofStr "x") []))
    (.cons (.node eqI0) (.cons .null .nil))) []

/-- Example node `Plus(Identifier('a'), Identifier('b'),
mathcolor='red')`: a binary operation carrying a nonempty attribute
mapping. -/
def plusAttr : MathExpr :=
  .binaryOp "+" (.cons (.node aId) (.cons (.node bId) .nil))
    [("mathcolor", "red")]

/-! Helper lemmas shared by several claims. -/

/-- Interleaving the operator token before each trailing operand and
rendering generically is the same as the trailing-operand rendering of
`BinaryOperation.to_mml`. -/
theorem childrenToMml_interleaveTail (op : String) :
    ∀ cs : ChildList, childrenToMml (interleaveTail op cs) = tailToMml op cs
  | .nil => rfl
  | .cons c cs => by
    have ih := childrenToMml_interleaveTail op cs
    simp only [interleaveTail, childrenToMml, childToMml, exprToMml, pyStr,
      tailToMml, ih, opMml]
    cases childToMml c <;> cases tailToMml op cs <;> rfl

/-- Argument coercion succeeds exactly when every argument is of a
coercible type. -/
theorem coerces_coerceArgs :
    ∀ args : List PyObj, coerces (coerceArgs args) = args.all coercible
  | [] => rfl
  | a :: rest => by
    have ih := coerces_coerceArgs rest
    cases a <;> cases h : coerceArgs rest <;>
      simp_all [coerceArgs, expression, coercible, coerces, List.all_cons]

/-- Generic composite construction succeeds exactly when every
argument coerces — there is no arity condition. -/
theorem constructs_mkExpression (tag : String) (args : List PyObj)
    (attributes : Attrs) :
    constructs (mkExpression tag args attributes) = args.all coercible := by
  have hca := coerces_coerceArgs args
  cases h : coerceArgs args <;> rw [h] at hca <;>
    simp_all [mkExpression, constructs, coerces]

/-- Rendering the children of a generic composite node ignores null
entries: removing them changes the serialized children only by empty
strings. -/
theorem childrenToMml_dropNull :
    ∀ cs : ChildList,
      (childrenToMml (dropNull cs)).map concatAll =
        (childrenToMml cs).map concatAll
  | .nil => rfl
  | .cons .null cs => by
    have ih := childrenToMml_dropNull cs
    cases h : childrenToMml cs <;> rw [h] at ih <;>
      simp_all [dropNull, childrenToMml, childToMml, concatAll]
  | .cons (.node e) cs => by
    have ih := childrenToMml_dropNull cs
    cases h : childrenToMml cs <;> rw [h] at ih
    · have hd : childrenToMml (dropNull cs) = none :=
        Option.map_eq_none'.mp ih
      simp [dropNull, childrenToMml, hd, h]
    · obtain ⟨l', hl', hc⟩ := Option.map_eq_some'.mp ih
      simp only [dropNull, childrenToMml, childToMml, hl', h]
      cases exprToMml e <;> simp [concatAll, hc]

/-! Claims. -/

/-- C1 counterexample: `Plus(a, b, mathcolor='red')` renders WITHOUT
its attribute mapping — the markup differs from the markup of the
`Row` that carries the attributes, so the operation's attributes are
not carried onto the synthesized `mrow`. -/
theorem binaryOp_attrs_dropped_counterexample :
    exprToMml plusAttr = some "<mrow><mi>a</mi><mo>+</mo><mi>b</mi></mrow>" ∧
    exprToMml (.elem "mrow"
      (interleave "+" (.cons (.node aId) (.cons (.node bId) .nil)))
      [("mathcolor", "red")]) =
      some "<mrow mathcolor=\"red\"><mi>a</mi><mo>+</mo><mi>b</mi></mrow>" ∧
    ("<mrow><mi>a</mi><mo>+</mo><mi>b</mi></mrow>" : String) ≠
      "<mrow mathcolor=\"red\"><mi>a</mi><mo>+</mo><mi>b</mi></mrow>" :=
  ⟨rfl, rfl, by decide⟩

/-- C1 (amended): a binary/associative operation node with operands
`e0..en` renders as the `Row` whose children are the operands with the
operator token interleaved between every consecutive pair, but whose
attribute mapping is EMPTY — the operation node's own attributes are
discarded, not carried onto the synthesized `mrow`
(`BinaryOperation.to_mml` builds `Row(*children)` without
`self.attributes`). -/
theorem binaryOp_renders_interleaved_row :
    ∀ (op : String) (c : Child) (cs : ChildList) (attributes : Attrs),
      exprToMml (.binaryOp op (.cons c cs) attributes) =
        exprToMml (.elem "mrow" (interleave op (.cons c cs)) []) := by
  intro op c cs attributes
  simp only [exprToMml, interleave, childrenToMml,
    childrenToMml_interleaveTail]
  cases childToMml c <;> cases tailToMml op cs <;> rfl

/-- C2 counterexample: constructing `Frac` with 0, 1 or 3 children
succeeds — no ArityMismatch error exists anywhere in the code, since
`Expression.__init__` never checks the child count. -/
theorem frac_arity_counterexample :
    Frac [] [] = .ok (.elem "mfrac" .nil []) ∧
    Frac [.num 1] [] =
      .ok (.elem "mfrac" (.cons (.node (Number (.ofNum 1) [])) .nil) []) ∧
    Frac [.num 1, .num 2, .num 3] [] =
      .ok (.elem "mfrac" (.cons (.node (Number (.ofNum 1) []))
        (.cons (.node (Number (.ofNum 2) []))
          (.cons (.node (Number (.ofNum 3) [])) .nil))) []) :=
  ⟨rfl, rfl, rfl⟩

/-- C2 (amended): construction of every composite variant (including
the nominally fixed-arity `Frac`) succeeds if and only if every child
coerces, REGARDLESS of the child count: no arity is enforced at
construction and no ArityMismatch error exists. -/
theorem construction_accepts_any_arity :
    (∀ (tag : String) (args : List PyObj) (attributes : Attrs),
      constructs (mkExpression tag args attributes) = args.all coercible) ∧
    (∀ (args : List PyObj) (attributes : Attrs),
      constructs (Frac args attributes) = args.all coercible) :=
  ⟨fun tag args attributes => constructs_mkExpression tag args attributes,
   fun args attributes => constructs_mkExpression "mfrac" args attributes⟩

/-- C4: the coercion `expression` returns a node unchanged, maps the
null placeholder to the null marker, wraps a number in a `Number`
token, wraps a string in an `Identifier` token, and raises
`ValueError` on every other input type — and only on those (the five
cases cover every input). -/
theorem expression_coercion_cases :
    (∀ e : MathExpr, expression (.node e) = .ok (some e)) ∧
    expression .none = .ok Option.none ∧
    (∀ n : Int, expression (.num n) = .ok (some (Number (.ofNum n) []))) ∧
    (∀ s : String,
      expression (.str s) = .ok (some (Identifier (.ofStr s) []))) ∧
    (∀ d : String, expression (.other d) = .error (.other d)) :=
  ⟨fun _ => rfl, rfl, fun _ => rfl, fun _ => rfl, fun _ => rfl⟩

/-- C6 counterexample: a `Token` whose stored value is a node does NOT
render the embedded node's markup as its text — the text is Python's
default object representation, so `Operator(Identifier('a'))` (here
with the stored object living at one concrete address) does not render
as `<mo><mi>a</mi></mo>`. -/
theorem token_node_value_counterexample :
    exprToMml aId = some "<mi>a</mi>" ∧
    exprToMml (.token "mo" (.ofNode aId "0x7f32a90b3d60") []) =
      some "<mo><pymathml.core.Identifier object at 0x7f32a90b3d60></mo>" ∧
    exprToMml (.token "mo" (.ofNode aId "0x7f32a90b3d60") []) ≠
      some "<mo><mi>a</mi></mo>" :=
  ⟨rfl, rfl, by decide⟩

/-- C6 (amended): a token whose stored value is itself a node
stringifies the value with plain `str`, which produces Python's
default object representation `<pymathml.core.Cls object at ADDR>`
carrying the stored object's own address (no base class defines a
string conversion that renders MathML) — and whatever that address is,
the token's text does not equal the embedded node's rendered markup:
the embedded node's renderer is never invoked. -/
theorem token_node_value_repr :
    (∀ (tag : String) (e : MathExpr) (addr : String) (attributes : Attrs),
      exprToMml (.token tag (.ofNode e addr) attributes) =
        some (to_xml_string tag (pyReprNodeAt addr e) [] attributes)) ∧
    (∀ addr : String,
      exprToMml (.token "mo" (.ofNode aId addr) []) ≠
        some "<mo><mi>a</mi></mo>") := by
  refine ⟨fun tag e addr attributes => rfl, fun addr h => ?_⟩
  simp only [exprToMml] at h
  have h2 := congrArg String.data (Option.some.inj h)
  simp only [pyStr, pyReprNodeAt] at h2
  have hcn : pyClassName aId = "Identifier" := rfl
  rw [hcn] at h2
  simp only [to_xml_string, attrsString, concatAll] at h2
  simp [String.data_append] at h2

/-- C6 witness: both clauses at one concrete address. -/
theorem token_node_value_repr_witness :
    exprToMml (.token "mo" (.ofNode aId "0x7f9a00000000") []) =
      some (to_xml_string "mo" (pyReprNodeAt "0x7f9a00000000" aId) [] []) ∧
    exprToMml (.token "mo" (.ofNode aId "0x7f9a00000000") []) ≠
      some "<mo><mi>a</mi></mo>" :=
  ⟨token_node_value_repr.1 "mo" aId "0x7f9a00000000" [],
   token_node_value_repr.2 "0x7f9a00000000"⟩

/-- C7: subscripting with a tuple key builds
`Sub(a, Fenced(*key, open='', close=''))`, subscripting with any other
key builds `Sub(a, coerce(key))`, and `p[1, 2]` renders exactly as
`<msub><mi>p</mi><mfenced open="" close=""><mn>1</mn><mn>2</mn></mfenced></msub>`. -/
theorem getitem_builds_sub :
    (∀ (a : MathExpr) (ks : List PyObj) (cs : ChildList),
      coerceArgs ks = .ok cs →
      getitem a (.tuple ks) = .ok (.elem "msub" (.cons (.node a)
        (.cons (.node (.elem "mfenced" cs [("open", ""), ("close", "")]))
          .nil)) [])) ∧
    (∀ (a : MathExpr) (k : PyObj) (c : Option MathExpr),
      expression k = .ok c →
      getitem a (.single k) =
        .ok (.elem "msub" (.cons (.node a) (.cons (childOf c) .nil)) [])) ∧
    (getitem pId (.tuple [.num 1, .num 2])).map exprToMml =
      .ok (some
        "<msub><mi>p</mi><mfenced open=\"\" close=\"\"><mn>1</mn><mn>2</mn></mfenced></msub>") := by
  refine ⟨fun a ks cs h => ?_, fun a k c h => ?_, rfl⟩
  · simp [getitem, Fenced, Sub, mkExpression, coerceArgs, expression,
      childOf, h]
  · cases k <;>
      simp_all [getitem, Sub, mkExpression, coerceArgs, expression, childOf]

/-- C7 witness: the tuple-key clause applied to `p[1, 2]`. -/
theorem getitem_builds_sub_witness :
    getitem pId (.tuple [.num 1, .num 2]) = .ok (.elem "msub"
      (.cons (.node pId) (.cons (.node (.elem "mfenced"
        (.cons (.node (Number (.ofNum 1) []))
          (.cons (.node (Number (.ofNum 2) [])) .nil))
        [("open", ""), ("close", "")])) .nil)) []) :=
  getitem_builds_sub.1 pId [.num 1, .num 2] _ rfl

/-- C8: with a display mode (any string, unvalidated), the top-level
entry point wraps the bare rendering in a `math` element carrying
exactly `xmlns="http://www.w3.org/1998/Math/MathML"` and
`display=mode`; with the display mode omitted it returns the bare
rendering unwrapped. -/
theorem to_mml_display_wrapping :
    (∀ (t : MathExpr) (d : String),
      to_mml (.node t) (some d) = (exprToMml t).map (fun e =>
        "<math xmlns=\"http://www.w3.org/1998/Math/MathML\" display=\""
          ++ d ++ "\">" ++ e ++ "</math>")) ∧
    (∀ t : MathExpr, to_mml (.node t) Option.none = exprToMml t) ∧
    to_mml (.node aId) (some "block") =
      some "<math xmlns=\"http://www.w3.org/1998/Math/MathML\" display=\"block\"><mi>a</mi></math>" ∧
    to_mml (.node aId) (some "bogus") =
      some "<math xmlns=\"http://www.w3.org/1998/Math/MathML\" display=\"bogus\"><mi>a</mi></math>" := by
  refine ⟨fun t d => ?_, fun t => ?_, rfl, rfl⟩
  · cases h : exprToMml t <;>
      simp only [to_mml, expression, h, Option.map_none', Option.map_some']
    case _ e =>
      apply congrArg
      apply String.ext
      simp [to_xml_string, attrsString, joinSpace, concatAll,
        String.data_append]
  · cases h : exprToMml t <;> simp [to_mml, expression, h]

/-- C9: the string serializer escapes nothing: a token's value and
every attribute value are interpolated verbatim (attribute values
between plain double quotes), so markup containing raw `<`, `&` or `"`
is produced unescaped and can be non-well-formed XML. -/
theorem serializer_never_escapes :
    (∀ (tag s : String) (attributes : Attrs),
      exprToMml (.token tag (.ofStr s) attributes) =
        some ("<" ++ tag ++ attrsString attributes ++ ">" ++ s
          ++ "</" ++ tag ++ ">")) ∧
    (∀ k v : String, attrsString [(k, v)] = " " ++ k ++ "=\"" ++ v ++ "\"") ∧
    exprToMml (.token "mi" (.ofStr "a<b&c>d") []) =
      some "<mi>a<b&c>d</mi>" ∧
    exprToMml (.token "mi" (.ofStr "x") [("class", "a\"b")]) =
      some "<mi class=\"a\"b\">x</mi>" := by
  refine ⟨fun tag s attributes => ?_, fun k v => ?_, rfl, rfl⟩
  · simp only [exprToMml, pyStr]
    apply congrArg
    apply String.ext
    simp [to_xml_string, concatAll, String.data_append]
  · apply String.ext
    simp [attrsString, joinSpace, String.data_append]

/-- C10: rendering the null placeholder never fails: `to_mml(None)` is
the empty string, `to_mml(None, display=d)` is a `math` wrapper with
empty content, a null child contributes the empty string to the
serialized children, and removing the null children of a generic
composite node leaves its markup unchanged. -/
theorem null_children_skipped :
    to_mml .none Option.none = some "" ∧
    (∀ d : String, to_mml .none (some d) =
      some ("<math xmlns=\"http://www.w3.org/1998/Math/MathML\" display=\""
        ++ d ++ "\"></math>")) ∧
    childToMml .null = some "" ∧
    (∀ (tag : String) (cs : ChildList) (attributes : Attrs),
      exprToMml (.elem tag cs attributes) =
        exprToMml (.elem tag (dropNull cs) attributes)) := by
  refine ⟨rfl, fun d => ?_, rfl, fun tag cs attributes => ?_⟩
  · have hred : to_mml .none (some d) = some (to_xml_string "math" "" [""]
        [("xmlns", "http://www.w3.org/1998/Math/MathML"), ("display", d)]) :=
      rfl
    rw [hred]
    apply congrArg
    apply String.ext
    simp [to_xml_string, attrsString, joinSpace, concatAll,
      String.data_append]
  · have h := childrenToMml_dropNull cs
    simp only [exprToMml]
    cases h1 : childrenToMml cs <;> rw [h1] at h
    · simp only [Option.map_eq_none'.mp h]
    · obtain ⟨l', hl', hc⟩ := Option.map_eq_some'.mp h
      simp only [hl']
      apply congrArg
      apply String.ext
      simp [to_xml_string, hc, String.data_append]

/-- C5: an n-ary limit operation with stored children (operand, lower,
upper) renders as `Row(wrapped, operand)` carrying the operation
node's attributes, where `wrapped` is the bare operator token when
neither limit is present, `Under(operator, lower)` when only the lower
limit is present, `Over(operator, upper)` when only the upper limit is
present, and `UnderOver(operator, lower, upper)` when both are; the
concrete `Sum(x, Equals(i, 0), None)` renders to the exact markup with
the U+2211 N-ARY SUMMATION glyph. -/
theorem naryOp_renders_wrapped_operator :
    (∀ (op : String) (operand : Child) (attributes : Attrs),
      exprToMml (.naryOp op (.cons operand (.cons .null (.cons .null .nil)))
        attributes) =
      exprToMml (.elem "mrow" (.cons (.node (Operator (.ofStr op) []))
        (.cons operand .nil)) attributes)) ∧
    (∀ (op : String) (operand : Child) (l : MathExpr) (attributes : Attrs),
      exprToMml (.naryOp op
        (.cons operand (.cons (.node l) (.cons .null .nil))) attributes) =
      exprToMml (.elem "mrow" (.cons (.node (.elem "munder"
        (.cons (.node (Operator (.ofStr op) [])) (.cons (.node l) .nil)) []))
        (.cons operand .nil)) attributes)) ∧
    (∀ (op : String) (operand : Child) (u : MathExpr) (attributes : Attrs),
      exprToMml (.naryOp op
        (.cons operand (.cons .null (.cons (.node u) .nil))) attributes) =
      exprToMml (.elem "mrow" (.cons (.node (.elem "mover"
        (.cons (.node (Operator (.ofStr op) [])) (.cons (.node u) .nil)) []))
        (.cons operand .nil)) attributes)) ∧
    (∀ (op : String) (operand : Child) (l u : MathExpr) (attributes : Attrs),
      exprToMml (.naryOp op
        (.cons operand (.cons (.node l) (.cons (.node u) .nil))) attributes) =
      exprToMml (.elem "mrow" (.cons (.node (.elem "munderover"
        (.cons (.node (Operator (.ofStr op) []))
          (.cons (.node l) (.cons (.node u) .nil))) []))
        (.cons operand .nil)) attributes)) ∧
    Equals [.node (Identifier (.ofStr "i") []), .num 0] [] = .ok eqI0 ∧
    Sum [.node (Identifier (.ofStr "x") []), .node eqI0, .none] [] =
      .ok sumExample ∧
    exprToMml sumExample =
      some "<mrow><munder><mo>∑</mo><mrow><mi>i</mi><mo>=</mo><mn>0</mn></mrow></munder><mi>x</mi></mrow>" := by
  refine ⟨fun op operand attributes => ?_, fun op operand l attributes => ?_,
    fun op operand u attributes => ?_, fun op operand l u attributes => ?_,
    rfl, rfl, rfl⟩
  · cases h2 : childToMml operand <;>
      simp [exprToMml, childrenToMml, childToMml, Operator, pyStr, opMml, h2]
  · cases h1 : exprToMml l <;> cases h2 : childToMml operand <;>
      simp [exprToMml, childrenToMml, childToMml, Operator, pyStr, opMml,
        h1, h2]
  · cases h1 : exprToMml u <;> cases h2 : childToMml operand <;>
      simp [exprToMml, childrenToMml, childToMml, Operator, pyStr, opMml,
        h1, h2]
  · cases h1 : exprToMml l <;> cases h1' : exprToMml u <;>
      cases h2 : childToMml operand <;>
      simp [exprToMml, childrenToMml, childToMml, Operator, pyStr, opMml,
        h1, h1', h2]

/-- Serialization of concatenated sibling lists. -/
theorem serializeForest_append :
    ∀ f g : XmlForest,
      serializeForest (f.append g) = serializeForest f ++ serializeForest g
  | .nil, g => by
    apply String.ext
    simp [XmlForest.append, serializeForest, String.data_append]
  | .cons x xs, g => by
    have ih := serializeForest_append xs g
    simp only [XmlForest.append, serializeForest, ih]
    apply String.ext
    simp [String.data_append]

mutual

/-- On trees of API shape with no attributed binary operation, the
structured path succeeds and the string path produces exactly the
canonical serialization of the structured element. -/
theorem c3core_expr :
    ∀ t : MathExpr, wfExpr t = true → noAttrBinExpr t = true →
      ∃ x, tomathmlE t = some x ∧ exprToMml t = some (serializeXml x)
  | .token tag v attributes, _, _ => by
    refine ⟨.mk tag attributes (pyStr v) .nil, rfl, ?_⟩
    simp only [exprToMml]
    apply congrArg
    apply String.ext
    simp [to_xml_string, serializeXml, serializeForest, concatAll,
      String.data_append]
  | .elem tag cs attributes, h1, h2 => by
    obtain ⟨f, l, hf, hl, hc⟩ := c3core_children cs
      (by simpa [wfExpr] using h1) (by simpa [noAttrBinExpr] using h2)
    refine ⟨.mk tag attributes "" f, by simp [tomathmlE, hf], ?_⟩
    simp only [exprToMml, hl]
    apply congrArg
    apply String.ext
    simp [to_xml_string, serializeXml, hc, String.data_append]
  | .unaryOp op .nil attributes, h1, _ => by simp [wfExpr] at h1
  | .unaryOp op (.cons c rest) attributes, h1, h2 => by
    have hw : wfChild c = true := by
      have := (by simpa [wfExpr, wfChildren, Bool.and_eq_true] using h1 :
        wfChild c = true ∧ wfChildren rest = true)
      exact this.1
    have hn : noAttrBinChild c = true := by
      have := (by
        simpa [noAttrBinExpr, noAttrBinChildren, Bool.and_eq_true] using h2 :
        noAttrBinChild c = true ∧ noAttrBinChildren rest = true)
      exact this.1
    obtain ⟨f, hf, hs⟩ := c3core_child c hw hn
    refine ⟨.mk "mrow" attributes "" (.cons (opXml op) f),
      by simp [tomathmlE, hf], ?_⟩
    simp only [exprToMml, hs]
    apply congrArg
    apply String.ext
    simp [to_xml_string, serializeXml, serializeForest, opXml, opMml,
      attrsString, concatAll, String.data_append]
  | .binaryOp op .nil attributes, h1, _ => by simp [wfExpr] at h1
  | .binaryOp op (.cons c rest) attributes, h1, h2 => by
    have hw := (by simpa [wfExpr, wfChildren, Bool.and_eq_true] using h1 :
      wfChild c = true ∧ wfChildren rest = true)
    have hn := (by
      simpa [noAttrBinExpr, noAttrBinChildren, Bool.and_eq_true,
        List.isEmpty_iff] using h2 :
      attributes = [] ∧ noAttrBinChild c = true ∧
        noAttrBinChildren rest = true)
    obtain ⟨ha, hnc, hnr⟩ := hn
    subst ha
    obtain ⟨f, hf, hs⟩ := c3core_child c hw.1 hnc
    obtain ⟨tf, l, htf, hl, hc⟩ := c3core_tail op rest hw.2 hnr
    refine ⟨.mk "mrow" [] "" (f.append tf),
      by simp [tomathmlE, hf, htf], ?_⟩
    simp only [exprToMml, hs, hl]
    apply congrArg
    apply String.ext
    simp [to_xml_string, serializeXml, serializeForest_append, concatAll,
      hc, attrsString, String.data_append]
  | .naryOp op .nil attributes, h1, _ => by simp [wfExpr] at h1
  | .naryOp op (.cons _ .nil) attributes, h1, _ => by simp [wfExpr] at h1
  | .naryOp op (.cons _ (.cons _ .nil)) attributes, h1, _ => by
    simp [wfExpr] at h1
  | .naryOp op (.cons _ (.cons _ (.cons _ (.cons _ _)))) attributes, h1,
      _ => by simp [wfExpr] at h1
  | .naryOp op (.cons operand (.cons .null (.cons .null .nil))) attributes,
      h1, h2 => by
    have hw : wfChild operand = true := by
      simpa [wfExpr, wfChildren, wfChild, Bool.and_eq_true] using h1
    have hn : noAttrBinChild operand = true := by
      simpa [noAttrBinExpr, noAttrBinChildren, noAttrBinChild,
        Bool.and_eq_true] using h2
    obtain ⟨f, hf, hs⟩ := c3core_child operand hw hn
    refine ⟨.mk "mrow" attributes "" (.cons (opXml op) f),
      by simp [tomathmlE, hf], ?_⟩
    simp only [exprToMml, hs]
    apply congrArg
    apply String.ext
    simp [to_xml_string, serializeXml, serializeForest, opXml, opMml,
      attrsString, concatAll, String.data_append]
  | .naryOp op (.cons operand (.cons (.node l) (.cons .null .nil)))
      attributes, h1, h2 => by
    have hw := (by
      simpa [wfExpr, wfChildren, wfChild, Bool.and_eq_true] using h1 :
      wfChild operand = true ∧ wfExpr l = true)
    have hn := (by
      simpa [noAttrBinExpr, noAttrBinChildren, noAttrBinChild,
        Bool.and_eq_true] using h2 :
      noAttrBinChild operand = true ∧ noAttrBinExpr l = true)
    obtain ⟨xl, hxl, hsl⟩ := c3core_expr l hw.2 hn.2
    obtain ⟨f, hf, hs⟩ := c3core_child operand hw.1 hn.1
    refine ⟨.mk "mrow" attributes "" (.cons (.mk "munder" [] ""
      (.cons (opXml op) (.cons xl .nil))) f),
      by simp [tomathmlE, hxl, hf], ?_⟩
    simp only [exprToMml, hsl, hs]
    apply congrArg
    apply String.ext
    simp [to_xml_string, serializeXml, serializeForest, opXml, opMml,
      attrsString, concatAll, String.data_append]
  | .naryOp op (.cons operand (.cons .null (.cons (.node u) .nil)))
      attributes, h1, h2 => by
    have hw := (by
      simpa [wfExpr, wfChildren, wfChild, Bool.and_eq_true] using h1 :
      wfChild operand = true ∧ wfExpr u = true)
    have hn := (by
      simpa [noAttrBinExpr, noAttrBinChildren, noAttrBinChild,
        Bool.and_eq_true] using h2 :
      noAttrBinChild operand = true ∧ noAttrBinExpr u = true)
    obtain ⟨xu, hxu, hsu⟩ := c3core_expr u hw.2 hn.2
    obtain ⟨f, hf, hs⟩ := c3core_child operand hw.1 hn.1
    refine ⟨.mk "mrow" attributes "" (.cons (.mk "mover" [] ""
      (.cons (opXml op) (.cons xu .nil))) f),
      by simp [tomathmlE, hxu, hf], ?_⟩
    simp only [exprToMml, hsu, hs]
    apply congrArg
    apply String.ext
    simp [to_xml_string, serializeXml, serializeForest, opXml, opMml,
      attrsString, concatAll, String.data_append]
  | .naryOp op (.cons operand (.cons (.node l) (.cons (.node u) .nil)))
      attributes, h1, h2 => by
    have hw := (by
      simpa [wfExpr, wfChildren, wfChild, Bool.and_eq_true] using h1 :
      wfChild operand = true ∧ wfExpr l = true ∧ wfExpr u = true)
    have hn := (by
      simpa [noAttrBinExpr, noAttrBinChildren, noAttrBinChild,
        Bool.and_eq_true] using h2 :
      noAttrBinChild operand = true ∧ noAttrBinExpr l = true ∧
        noAttrBinExpr u = true)
    obtain ⟨xl, hxl, hsl⟩ := c3core_expr l hw.2.1 hn.2.1
    obtain ⟨xu, hxu, hsu⟩ := c3core_expr u hw.2.2 hn.2.2
    obtain ⟨f, hf, hs⟩ := c3core_child operand hw.1 hn.1
    refine ⟨.mk "mrow" attributes "" (.cons (.mk "munderover" [] ""
      (.cons (opXml op) (.cons xl (.cons xu .nil)))) f),
      by simp [tomathmlE, hxl, hxu, hf], ?_⟩
    simp only [exprToMml, hsl, hsu, hs]
    apply congrArg
    apply String.ext
    simp [to_xml_string, serializeXml, serializeForest, opXml, opMml,
      attrsString, concatAll, String.data_append]

/-- Structured and string contributions of one stored child agree. -/
theorem c3core_child :
    ∀ c : Child, wfChild c = true → noAttrBinChild c = true →
      ∃ f, tomathmlChild c = some f ∧
        childToMml c = some (serializeForest f)
  | .null, _, _ => ⟨.nil, rfl, rfl⟩
  | .node e, h1, h2 => by
    obtain ⟨x, hx, hs⟩ := c3core_expr e h1 h2
    refine ⟨.cons x .nil, by simp [tomathmlChild, hx], ?_⟩
    simp only [childToMml, hs, serializeForest]
    apply congrArg
    apply String.ext
    simp [String.data_append]

/-- Structured and string contributions of a stored child list agree. -/
theorem c3core_children :
    ∀ cs : ChildList, wfChildren cs = true → noAttrBinChildren cs = true →
      ∃ f l, tomathmlChildren cs = some f ∧ childrenToMml cs = some l ∧
        concatAll l = serializeForest f
  | .nil, _, _ => ⟨.nil, [], rfl, rfl, rfl⟩
  | .cons c cs, h1, h2 => by
    have hw := (by simpa [wfChildren, Bool.and_eq_true] using h1 :
      wfChild c = true ∧ wfChildren cs = true)
    have hn := (by simpa [noAttrBinChildren, Bool.and_eq_true] using h2 :
      noAttrBinChild c = true ∧ noAttrBinChildren cs = true)
    obtain ⟨f, hf, hs⟩ := c3core_child c hw.1 hn.1
    obtain ⟨fs, l, hfs, hl, hc⟩ := c3core_children cs hw.2 hn.2
    refine ⟨f.append fs, serializeForest f :: l,
      by simp [tomathmlChildren, hf, hfs],
      by simp [childrenToMml, hs, hl], ?_⟩
    simp only [concatAll, hc, serializeForest_append]

/-- Structured and string contributions of the trailing operands of a
binary operation agree. -/
theorem c3core_tail :
    ∀ (op : String) (cs : ChildList), wfChildren cs = true →
      noAttrBinChildren cs = true →
      ∃ f l, tomathmlTail op cs = some f ∧ tailToMml op cs = some l ∧
        concatAll l = serializeForest f
  | op, .nil, _, _ => ⟨.nil, [], rfl, rfl, rfl⟩
  | op, .cons c cs, h1, h2 => by
    have hw := (by simpa [wfChildren, Bool.and_eq_true] using h1 :
      wfChild c = true ∧ wfChildren cs = true)
    have hn := (by simpa [noAttrBinChildren, Bool.and_eq_true] using h2 :
      noAttrBinChild c = true ∧ noAttrBinChildren cs = true)
    obtain ⟨f, hf, hs⟩ := c3core_child c hw.1 hn.1
    obtain ⟨fs, l, hfs, hl, hc⟩ := c3core_tail op cs hw.2 hn.2
    refine ⟨.cons (opXml op) (f.append fs),
      opMml op :: serializeForest f :: l,
      by simp [tomathmlTail, hf, hfs],
      by simp [tailToMml, hs, hl], ?_⟩
    simp only [concatAll, hc, serializeForest_append, serializeForest]
    apply String.ext
    simp [opXml, opMml, to_xml_string, serializeXml, serializeForest,
      attrsString, concatAll, String.data_append]

end

/-- C3 counterexample: on `Plus(a, b, mathcolor='red')` the two
rendering paths diverge — the structured element carries the attribute
mapping on its `mrow` root (as §4.4 prescribes) while the flat string
path drops it, so the two outputs do not compare equal node-for-node. -/
theorem paths_diverge_on_attributed_binaryOp :
    tomathml (.node plusAttr) Option.none =
      some (.mk "mrow" [("mathcolor", "red")] ""
        (.cons (.mk "mi" [] "a" .nil) (.cons (.mk "mo" [] "+" .nil)
          (.cons (.mk "mi" [] "b" .nil) .nil)))) ∧
    to_mml (.node plusAttr) Option.none =
      some "<mrow><mi>a</mi><mo>+</mo><mi>b</mi></mrow>" ∧
    (tomathml (.node plusAttr) Option.none).map serializeXml ≠
      to_mml (.node plusAttr) Option.none :=
  ⟨rfl, rfl, by decide⟩

/-- C3 (amended, spec-modelled): for every API-shaped tree in which no
binary/associative operation node carries a nonempty attribute mapping
(the string path drops exactly those attributes), both rendering paths
succeed, and the flat string is exactly the canonical serialization of
the structured element — so the two outputs re-parse to the same
generic XML tree node-for-node — both bare and display-wrapped. -/
theorem paths_agree_up_to_binary_attrs :
    ∀ t : MathExpr, wfExpr t = true → noAttrBinExpr t = true →
      (∃ x s, tomathml (.node t) Option.none = some x ∧
        to_mml (.node t) Option.none = some s ∧ serializeXml x = s) ∧
      (∀ d : String, ∃ x s, tomathml (.node t) (some d) = some x ∧
        to_mml (.node t) (some d) = some s ∧ serializeXml x = s) := by
  intro t h1 h2
  obtain ⟨x, hx, hs⟩ := c3core_expr t h1 h2
  constructor
  · exact ⟨x, serializeXml x, by simp [tomathml, expression, hx],
      by simp [to_mml, expression, hs], rfl⟩
  · intro d
    refine ⟨.mk "math"
      [("xmlns", "http://www.w3.org/1998/Math/MathML"), ("display", d)]
      "" (.cons x .nil),
      to_xml_string "math" "" [serializeXml x]
        [("xmlns", "http://www.w3.org/1998/Math/MathML"), ("display", d)],
      by simp [tomathml, expression, hx],
      by simp [to_mml, expression, hs], ?_⟩
    apply String.ext
    simp [serializeXml, serializeForest, to_xml_string, concatAll,
      String.data_append]

/-- C3 witness: both paths at the concrete `Sum` example, bare and
with display mode `block`. -/
theorem paths_agree_witness :
    wfExpr sumExample = true ∧ noAttrBinExpr sumExample = true ∧
    (∃ x s, tomathml (.node sumExample) (some "block") = some x ∧
      to_mml (.node sumExample) (some "block") = some s ∧
      serializeXml x = s) :=
  ⟨by decide, by decide,
    (paths_agree_up_to_binary_attrs sumExample (by decide)
      (by decide)).2 "block"⟩

end pymathml
